import Mathlib

/-!
Shallow embedding of `src/structured_openai.py`.

The repository exposes one factory, `generate_structured_openai_call`, which
captures a configuration (prompt, JSON-schema properties, model, temperature,
include-original-input flag) and returns a closure `inner_function` that issues
one chat-completion request with a forced function call and decodes the
returned function-call arguments with `json.loads`.

Python dictionaries are embedded as association lists `List (String × Json)`
in insertion order; the dict operations used by the code (`|` merge, `keys()`,
duplicate-key insertion while building a literal) are modelled explicitly.
The external OpenAI client is modelled as a function from requests to
completions, and the request actually issued by an invocation is returned as
an explicit trace so that theorems can speak about what was sent.
-/

set_option autoImplicit false

namespace StructuredOpenAI

/-- JSON values, as produced by Python's `json.loads`.  Numbers are kept as
their source lexemes (Python distinguishes int and float; no claim here
computes with numeric values, only with validity and structural equality of a
single parse). -/
inductive Json where
  | null : Json
  | bool : Bool → Json
  | num : String → Json
  | str : String → Json
  | arr : List Json → Json
  | obj : List (String × Json) → Json
deriving Repr

/-- Boolean equality on `Json`, structural. -/
def Json.beq : Json → Json → Bool
  | .null, .null => true
  | .bool a, .bool b => a = b
  | .num a, .num b => a = b
  | .str a, .str b => a = b
  | .arr a, .arr b => beqList a b
  | .obj a, .obj b => beqObj a b
  | _, _ => false
where
  beqList : List Json → List Json → Bool
    | [], [] => true
    | x :: xs, y :: ys => Json.beq x y && beqList xs ys
    | _, _ => false
  beqObj : List (String × Json) → List (String × Json) → Bool
    | [], [] => true
    | (k, x) :: xs, (l, y) :: ys => k = l && Json.beq x y && beqObj xs ys
    | _, _ => false

mutual

theorem Json.beq_iff_eq : ∀ a b : Json, Json.beq a b = true ↔ a = b
  | .null, b => by cases b <;> simp [Json.beq]
  | .bool a, b => by cases b <;> simp [Json.beq]
  | .num a, b => by cases b <;> simp [Json.beq]
  | .str a, b => by cases b <;> simp [Json.beq]
  | .arr a, b => by
      cases b <;> simp [Json.beq]
      exact Json.beqList_iff_eq a _
  | .obj a, b => by
      cases b <;> simp [Json.beq]
      exact Json.beqObj_iff_eq a _

theorem Json.beqList_iff_eq : ∀ a b : List Json, Json.beq.beqList a b = true ↔ a = b
  | [], [] => by simp [Json.beq.beqList]
  | [], _ :: _ => by simp [Json.beq.beqList]
  | _ :: _, [] => by simp [Json.beq.beqList]
  | x :: xs, y :: ys => by
      simp [Json.beq.beqList, Json.beq_iff_eq x y, Json.beqList_iff_eq xs ys]

theorem Json.beqObj_iff_eq :
    ∀ a b : List (String × Json), Json.beq.beqObj a b = true ↔ a = b
  | [], [] => by simp [Json.beq.beqObj]
  | [], _ :: _ => by simp [Json.beq.beqObj]
  | _ :: _, [] => by simp [Json.beq.beqObj]
  | (k, x) :: xs, (l, y) :: ys => by
      simp [Json.beq.beqObj, Json.beq_iff_eq x y, Json.beqObj_iff_eq xs ys, and_assoc]

end

instance : DecidableEq Json := fun a b =>
  decidable_of_iff (Json.beq a b = true) (Json.beq_iff_eq a b)

/-- First value stored under key `k` in an association list (Python dicts have
unique keys, so first = only). -/
def dictFind (k : String) : List (String × Json) → Option Json
  | [] => none
  | (k0, v) :: rest => if k0 = k then some v else dictFind k rest

/-- Python dict insertion `d[k] = v`: an existing key keeps its position and
has its value replaced; a new key is appended. -/
def pyDictInsert : List (String × Json) → String → Json → List (String × Json)
  | [], k, v => [(k, v)]
  | (k0, v0) :: rest, k, v =>
    if k0 = k then (k0, v) :: rest else (k0, v0) :: pyDictInsert rest k v

/-- Python dict merge `a | b`: keys of `a` in their order (values overridden
by `b` where `b` also has the key), then the keys of `b` not in `a`, in `b`'s
order. -/
def pyDictUnion (a b : List (String × Json)) : List (String × Json) :=
  a.map (fun kv => (kv.1, (dictFind kv.1 b).getD kv.2)) ++
    b.filter (fun kv => (dictFind kv.1 a).isNone)

/-! ### A model of Python's `json.loads`

A fuel-based recursive-descent parser over `List Char`, following RFC 8259 as
implemented by Python's `json` module with its default flags: the four JSON
whitespace characters, strict strings (unescaped control characters rejected,
the standard escapes and `\uXXXX` with surrogate-pair combination), numbers
`-?(0|[1-9][0-9]*)(.[0-9]+)?([eE][+-]?[0-9]+)?`, the extra constants `NaN`,
`Infinity` and `-Infinity` accepted by Python, and last-wins duplicate object
keys.  Modelling boundary: a lone surrogate escape, which Python would keep as
a lone surrogate code unit, is mapped through `Char.ofNat` (hence to `U+0000`)
because Lean's `Char` only holds unicode scalar values; no claim depends on
this corner.  The fuel is sized so that it never runs out on any input. -/

def isJsonWs (c : Char) : Bool := c = ' ' || c = '\t' || c = '\n' || c = '\r'

def skipWs : List Char → List Char
  | c :: cs => if isJsonWs c then skipWs cs else c :: cs
  | [] => []

/-- Longest leading run of ASCII digits. -/
def takeDigits : List Char → List Char × List Char
  | c :: cs =>
    if c.isDigit then
      let (d, r) := takeDigits cs
      (c :: d, r)
    else ([], c :: cs)
  | [] => ([], [])

/-- Integer part of a JSON number: `0`, or a nonzero digit followed by digits. -/
def lexInt : List Char → Option (List Char × List Char)
  | c :: cs =>
    if c = '0' then some ([c], cs)
    else if c.isDigit then
      let (d, r) := takeDigits cs
      some (c :: d, r)
    else none
  | [] => none

/-- Optional fraction part `.[0-9]+`; never fails, consumes nothing when the
regex does not match (mirroring the greedy number regex of Python's json). -/
def lexFrac : List Char → List Char × List Char
  | '.' :: cs =>
    let (d, r) := takeDigits cs
    if d.isEmpty then ([], '.' :: cs) else ('.' :: d, r)
  | cs => ([], cs)

/-- Optional exponent part `[eE][+-]?[0-9]+`; never fails, consumes nothing
when the regex does not match. -/
def lexExp : List Char → List Char × List Char
  | c :: cs =>
    if c = 'e' ∨ c = 'E' then
      match cs with
      | s :: cs2 =>
        if s = '+' ∨ s = '-' then
          let (d, r) := takeDigits cs2
          if d.isEmpty then ([], c :: s :: cs2) else (c :: s :: d, r)
        else
          let (d, r) := takeDigits cs
          if d.isEmpty then ([], c :: cs) else (c :: d, r)
      | [] => ([], [c])
    else ([], c :: cs)
  | [] => ([], [])

/-- Lex a JSON number (without the `NaN`/`Infinity` constants), returning its
lexeme. -/
def lexNumber : List Char → Option (String × List Char)
  | '-' :: cs => do
    let (i, r) ← lexInt cs
    let (f, r2) := lexFrac r
    let (e, r3) := lexExp r2
    some (String.mk ('-' :: (i ++ f ++ e)), r3)
  | cs => do
    let (i, r) ← lexInt cs
    let (f, r2) := lexFrac r
    let (e, r3) := lexExp r2
    some (String.mk (i ++ f ++ e), r3)

def hexVal (c : Char) : Option Nat :=
  if c.isDigit then some (c.toNat - '0'.toNat)
  else if 'a' ≤ c ∧ c ≤ 'f' then some (c.toNat - 'a'.toNat + 10)
  else if 'A' ≤ c ∧ c ≤ 'F' then some (c.toNat - 'A'.toNat + 10)
  else none

/-- Four hex digits of a `\uXXXX` escape. -/
def lexHex4 : List Char → Option (Nat × List Char)
  | a :: b :: c :: d :: rest => do
    let va ← hexVal a
    let vb ← hexVal b
    let vc ← hexVal c
    let vd ← hexVal d
    some (((va * 16 + vb) * 16 + vc) * 16 + vd, rest)
  | _ => none

/-- Body of a JSON string after the opening quote, up to and past the closing
quote, with escapes decoded.  `fuel` bounds the recursion depth; one character
of input is consumed per step, so `length + 1` fuel always suffices. -/
def lexStringBody : Nat → List Char → Option (List Char × List Char)
  | 0, _ => none
  | _ + 1, [] => none
  | fuel + 1, c :: cs =>
    if c = '"' then some ([], cs)
    else if c = '\\' then
      match cs with
      | [] => none
      | e :: cs2 =>
        if e = '"' ∨ e = '\\' ∨ e = '/' then
          (lexStringBody fuel cs2).map (fun p => (e :: p.1, p.2))
        else if e = 'b' then
          (lexStringBody fuel cs2).map (fun p => (Char.ofNat 8 :: p.1, p.2))
        else if e = 'f' then
          (lexStringBody fuel cs2).map (fun p => (Char.ofNat 12 :: p.1, p.2))
        else if e = 'n' then
          (lexStringBody fuel cs2).map (fun p => ('\n' :: p.1, p.2))
        else if e = 'r' then
          (lexStringBody fuel cs2).map (fun p => ('\r' :: p.1, p.2))
        else if e = 't' then
          (lexStringBody fuel cs2).map (fun p => ('\t' :: p.1, p.2))
        else if e = 'u' then
          match lexHex4 cs2 with
          | none => none
          | some (n, cs3) =>
            if 0xD800 ≤ n ∧ n ≤ 0xDBFF then
              match cs3 with
              | '\\' :: 'u' :: cs4 =>
                match lexHex4 cs4 with
                | some (m, cs5) =>
                  if 0xDC00 ≤ m ∧ m ≤ 0xDFFF then
                    (lexStringBody fuel cs5).map
                      (fun p =>
                        (Char.ofNat (0x10000 + (n - 0xD800) * 0x400 + (m - 0xDC00)) :: p.1,
                          p.2))
                  else (lexStringBody fuel cs3).map (fun p => (Char.ofNat n :: p.1, p.2))
                | none => (lexStringBody fuel cs3).map (fun p => (Char.ofNat n :: p.1, p.2))
              | _ => (lexStringBody fuel cs3).map (fun p => (Char.ofNat n :: p.1, p.2))
            else (lexStringBody fuel cs3).map (fun p => (Char.ofNat n :: p.1, p.2))
        else none
    else if c.toNat < 0x20 then none
    else (lexStringBody fuel cs).map (fun p => (c :: p.1, p.2))

/-- Drop an expected literal (like `true`) from the front of the input. -/
def dropLit : List Char → List Char → Option (List Char)
  | [], cs => some cs
  | _ :: _, [] => none
  | l :: ls, c :: cs => if c = l then dropLit ls cs else none

def lbrace : Char := Char.ofNat 123

def rbrace : Char := Char.ofNat 125

mutual

/-- Parse one JSON value, returning it and the unconsumed rest. -/
def parseValue : Nat → List Char → Option (Json × List Char)
  | 0, _ => none
  | fuel + 1, cs0 =>
    match skipWs cs0 with
    | [] => none
    | c :: rest =>
      if c = lbrace then
        match skipWs rest with
        | c2 :: rest2 =>
          if c2 = rbrace then some (Json.obj [], rest2)
          else parseMembers fuel (c2 :: rest2) []
        | [] => none
      else if c = '[' then
        match skipWs rest with
        | ']' :: rest2 => some (Json.arr [], rest2)
        | cs2 => parseElements fuel cs2 []
      else if c = '"' then
        (lexStringBody (rest.length + 1) rest).map
          (fun p => (Json.str (String.mk p.1), p.2))
      else if c = 't' then
        (dropLit ("true".toList) (c :: rest)).map (fun r => (Json.bool true, r))
      else if c = 'f' then
        (dropLit ("false".toList) (c :: rest)).map (fun r => (Json.bool false, r))
      else if c = 'n' then
        (dropLit ("null".toList) (c :: rest)).map (fun r => (Json.null, r))
      else if c = 'N' then
        (dropLit ("NaN".toList) (c :: rest)).map (fun r => (Json.num "NaN", r))
      else if c = 'I' then
        (dropLit ("Infinity".toList) (c :: rest)).map (fun r => (Json.num "Infinity", r))
      else if c = '-' then
        match dropLit ("-Infinity".toList) (c :: rest) with
        | some r => some (Json.num "-Infinity", r)
        | none => (lexNumber (c :: rest)).map (fun p => (Json.num p.1, p.2))
      else
        (lexNumber (c :: rest)).map (fun p => (Json.num p.1, p.2))

/-- Parse the members of an object after at least one member is known to
follow; `acc` is the dict built so far (last-wins on duplicate keys). -/
def parseMembers : Nat → List Char → List (String × Json) → Option (Json × List Char)
  | 0, _, _ => none
  | fuel + 1, cs, acc =>
    match skipWs cs with
    | '"' :: rest =>
      match lexStringBody (rest.length + 1) rest with
      | none => none
      | some (key, cs2) =>
        match skipWs cs2 with
        | ':' :: cs3 =>
          match parseValue fuel cs3 with
          | none => none
          | some (v, cs4) =>
            let acc2 := pyDictInsert acc (String.mk key) v
            match skipWs cs4 with
            | ',' :: cs5 => parseMembers fuel cs5 acc2
            | c :: cs5 => if c = rbrace then some (Json.obj acc2, cs5) else none
            | [] => none
        | _ => none
    | _ => none

/-- Parse the elements of an array after at least one element is known to
follow. -/
def parseElements : Nat → List Char → List Json → Option (Json × List Char)
  | 0, _, _ => none
  | fuel + 1, cs, acc =>
    match parseValue fuel cs with
    | none => none
    | some (v, cs2) =>
      match skipWs cs2 with
      | ',' :: cs3 => parseElements fuel cs3 (acc ++ [v])
      | ']' :: cs3 => some (Json.arr (acc ++ [v]), cs3)
      | _ => none

end

/-- Model of Python's `json.loads`: parse one JSON document and require only
whitespace after it; `none` models `json.JSONDecodeError`.  At most two units
of fuel are spent per character consumed, so the fuel never runs out. -/
def json_loads (s : String) : Option Json :=
  let cs := s.toList
  match parseValue (2 * cs.length + 2) cs with
  | none => none
  | some (v, rest) => if (skipWs rest).isEmpty then some v else none

/-! ### The OpenAI chat-completion interface, as used by the code

Only the fields the code supplies or reads are modelled.  The external client
is a function from requests to completions; the single `create` call an
invocation performs is made observable by returning the list of requests
issued (always a singleton) alongside the decoded result. -/

/-- One element of the `messages` argument of `create`. -/
structure ChatMessage where
  role : String
  content : String
deriving Repr, DecidableEq

/-- One element of the `functions` argument of `create`; `parameters` is the
JSON-schema object. -/
structure FunctionDecl where
  name : String
  description : String
  parameters : Json
deriving Repr, DecidableEq

/-- The request sent by `OPENAI_CLIENT.chat.completions.create`;
`function_call` holds the function name from the `{"name": ...}` directive
that forces the call. -/
structure Request where
  model : String
  messages : List ChatMessage
  temperature : ℚ
  functions : List FunctionDecl
  function_call : String
deriving Repr, DecidableEq

/-- The `function_call` field of a completion message, whose `arguments` is a
JSON-encoded string. -/
structure FunctionCallPart where
  arguments : String
deriving Repr, DecidableEq

/-- A completion message (`completion.choices[i].message`). -/
structure ResponseMessage where
  function_call : FunctionCallPart
deriving Repr, DecidableEq

/-- One completion choice. -/
structure Choice where
  message : ResponseMessage
deriving Repr, DecidableEq

/-- The completion returned by the service. -/
structure Completion where
  choices : List Choice
deriving Repr, DecidableEq

/-- Errors an invocation of the returned callable can raise:
`json.JSONDecodeError` from `json.loads`, and `IndexError` from
`completion.choices[0]` when the service returns no choices. -/
inductive CallError where
  | decodeError : CallError
  | indexError : CallError
deriving Repr, DecidableEq

/-- The configuration captured by `generate_structured_openai_call` and closed
over by `inner_function`: the prompt, the (possibly rebound) local
`response_properties`, the model and the temperature. -/
structure CallConfig where
  prompt : String
  response_properties : List (String × Json)
  model : String
  temperature : ℚ
deriving Repr, DecidableEq

/-- The fixed descriptor merged in front of the caller's properties when
`include_original_input` is true. -/
def originalInputDescriptor : Json :=
  Json.obj [("type", Json.str "string"), ("description", Json.str "The original user input")]

/-- Embedding of the body of `generate_structured_openai_call` up to the
definition of `inner_function`: when `include_original_input` is set, the
local name `response_properties` is rebound to
`{"original_input": {...}} | response_properties`; the captured configuration
is returned (the Python function returns the closure `inner_function` over
exactly this data). -/
def generate_structured_openai_call (prompt : String)
    (response_properties : List (String × Json))
    (model : String := "gpt-3.5-turbo") (temperature : ℚ := 0)
    (include_original_input : Bool := true) : CallConfig :=
  let response_properties :=
    if include_original_input then
      pyDictUnion [("original_input", originalInputDescriptor)] response_properties
    else response_properties
  { prompt := prompt
    response_properties := response_properties
    model := model
    temperature := temperature }

/-- The request built inside `inner_function`'s call to `create`: the captured
prompt as the system message, the user input as the user message, the captured
temperature, and one function named `structured_response` whose parameters are
the effective schema with every key required. -/
def mkRequest (cfg : CallConfig) (user_input : String) : Request :=
  { model := cfg.model
    messages := [⟨"system", cfg.prompt⟩, ⟨"user", user_input⟩]
    temperature := cfg.temperature
    functions :=
      [{ name := "structured_response"
         description := "Responses must always be structured this way"
         parameters :=
           Json.obj
             [("type", Json.str "object"),
              ("properties", Json.obj cfg.response_properties),
              ("required", Json.arr (cfg.response_properties.map (fun kv => Json.str kv.1)))] }]
    function_call := "structured_response" }

/-- Embedding of `inner_function`: one `create` call (the singleton request
trace), then `json.loads(completion.choices[0].message.function_call.arguments)`. -/
def inner_function (cfg : CallConfig) (service : Request → Completion)
    (user_input : String) : List Request × Except CallError Json :=
  let req := mkRequest cfg user_input
  let completion := service req
  ([req],
    match completion.choices.head? with
    | none => Except.error CallError.indexError
    | some choice =>
      match json_loads choice.message.function_call.arguments with
      | none => Except.error CallError.decodeError
      | some j => Except.ok j)

/-- A service stub that echoes a fixed function-call arguments string,
whatever the request. -/
def echoService (s : String) : Request → Completion :=
  fun _ => { choices := [{ message := { function_call := { arguments := s } } }] }

/-! ### Heap-level model of the dict rebinding

Python dicts are mutable heap objects; the claim that the factory never
mutates the caller's `response_properties` is about the heap.  A store maps
dict references (allocation indices) to their current contents; `a | b` reads
both operands and allocates a fresh dict, and the assignment
`response_properties = {...} | response_properties` only rebinds the local
name to the fresh reference. -/

abbrev DictStore : Type := List (List (String × Json))

/-- Contents of the dict at reference `r`. -/
def DictStore.get (s : DictStore) (r : Nat) : List (String × Json) :=
  List.getD s r []

/-- Number of allocated dicts. -/
def DictStore.size (s : DictStore) : Nat := List.length s

/-- The captured configuration at heap level: `props_ref` is the reference the
local name `response_properties` holds when `inner_function` is created. -/
structure HeapCallConfig where
  prompt : String
  props_ref : Nat
  model : String
  temperature : ℚ

/-- Heap-level embedding of `generate_structured_openai_call`: with
`include_original_input` set, the merge `{"original_input": {...}} |
response_properties` reads the caller's dict, allocates a fresh dict holding
the merged entries, and rebinds the local name to it; the caller's dict is
never written. -/
def generate_structured_openai_call_heap (store : DictStore) (prompt : String)
    (props_ref : Nat) (model : String) (temperature : ℚ)
    (include_original_input : Bool) : DictStore × HeapCallConfig :=
  if include_original_input then
    let merged :=
      pyDictUnion [("original_input", originalInputDescriptor)] (store.get props_ref)
    (store ++ [merged], ⟨prompt, store.size, model, temperature⟩)
  else
    (store, ⟨prompt, props_ref, model, temperature⟩)

/-- Heap-level invocation: `inner_function` only reads the captured dict (to
serialize `properties` and `required`); it returns no modified store because
it performs no dict write.  Defined as the value-level invocation on the
configuration read back from the store. -/
def inner_function_heap (store : DictStore) (cfg : HeapCallConfig)
    (service : Request → Completion) (user_input : String) :
    List Request × Except CallError Json :=
  inner_function ⟨cfg.prompt, store.get cfg.props_ref, cfg.model, cfg.temperature⟩
    service user_input

/-- Field access on a JSON object value. -/
def Json.objField : Json → String → Option Json
  | Json.obj l, k => dictFind k l
  | _, _ => none

/-! ### Helper lemmas -/

theorem filter_singleton_of_find_none (k : String) (d : Json) :
    ∀ l : List (String × Json), dictFind k l = none →
      l.filter (fun kv => (dictFind kv.1 [(k, d)]).isNone) = l := by
  intro l
  induction l with
  | nil => intro _; rfl
  | cons kv rest ih =>
    intro h
    obtain ⟨k0, v0⟩ := kv
    rw [dictFind] at h
    by_cases hk : k0 = k
    · simp [hk] at h
    · simp only [if_neg hk] at h
      have hne : ¬ k = k0 := fun hkk => hk hkk.symm
      rw [List.filter_cons, ih h]
      simp [dictFind, hne]

theorem filter_singleton_pred_eq (k : String) (d : Json) (l : List (String × Json)) :
    l.filter (fun kv => (dictFind kv.1 [(k, d)]).isNone)
      = l.filter (fun kv => decide (kv.1 ≠ k)) := by
  apply List.filter_congr
  intro kv _
  by_cases hk : kv.1 = k
  · simp [dictFind, hk]
  · have hne : ¬ k = kv.1 := fun hkk => hk hkk.symm
    simp [dictFind, hk, hne]

theorem count_map_fst_filter_ne (k : String) (l : List (String × Json)) :
    ((l.filter (fun kv => decide (kv.1 ≠ k))).map Prod.fst).count k = 0 := by
  rw [List.count_eq_zero]
  intro hmem
  obtain ⟨kv, hkv, hfst⟩ := List.mem_map.mp hmem
  have hpred := (List.mem_filter.mp hkv).2
  simp only [decide_eq_true_eq] at hpred
  exact hpred hfst

/-! ### The claims -/

/-- C5: `generate_structured_openai_call` itself performs no I/O and raises no
error on any input: it is a total function equal to pure configuration
capture (the optional merge of the fixed descriptor and the captured fields);
nothing about the schema is inspected or validated at build time. -/
theorem build_is_pure_configuration_capture (prompt : String)
    (props : List (String × Json)) (model : String) (temperature : ℚ)
    (include_original_input : Bool) :
    generate_structured_openai_call prompt props model temperature include_original_input
      = { prompt := prompt
          response_properties :=
            if include_original_input then
              pyDictUnion [("original_input", originalInputDescriptor)] props
            else props
          model := model
          temperature := temperature } := rfl

/-- C7: when `include_original_input` is false, the effective schema equals
the caller's `response_properties` unchanged: no key is added, removed or
reordered. -/
theorem effective_schema_unchanged_without_flag (prompt : String)
    (props : List (String × Json)) (model : String) (temperature : ℚ) :
    (generate_structured_openai_call prompt props model temperature false).response_properties
      = props := rfl

/-- C2: for every configuration and every invocation, the single request sent
to the service carries one function declaration whose `required` list is
exactly the list of the effective schema's keys, same membership and same
order. -/
theorem required_list_equals_effective_keys (prompt : String)
    (props : List (String × Json)) (model : String) (temperature : ℚ)
    (include_original_input : Bool) (service : Request → Completion)
    (user_input : String) :
    ((inner_function
          (generate_structured_openai_call prompt props model temperature include_original_input)
          service user_input).1).map
        (fun req => req.functions.map (fun fd => Json.objField fd.parameters "required"))
      = [[some (Json.arr
          (((generate_structured_openai_call prompt props model temperature
              include_original_input).response_properties).map (fun kv => Json.str kv.1)))]] := rfl

/-- C6: every invocation, the empty user input included, issues exactly one
request: two messages (the captured prompt as system role, the user input
unmodified as user role), the captured model and temperature, and a single
function directive named `structured_response` whose call is forced. -/
theorem invocation_issues_one_forced_request (prompt : String)
    (props : List (String × Json)) (model : String) (temperature : ℚ)
    (include_original_input : Bool) (service : Request → Completion)
    (user_input : String) :
    (inner_function
        (generate_structured_openai_call prompt props model temperature include_original_input)
        service user_input).1
      = [{ model := model
           messages := [⟨"system", prompt⟩, ⟨"user", user_input⟩]
           temperature := temperature
           functions :=
             [{ name := "structured_response"
                description := "Responses must always be structured this way"
                parameters :=
                  Json.obj
                    [("type", Json.str "object"),
                     ("properties",
                      Json.obj (generate_structured_openai_call prompt props model temperature
                        include_original_input).response_properties),
                     ("required",
                      Json.arr (((generate_structured_openai_call prompt props model temperature
                        include_original_input).response_properties).map
                          (fun kv => Json.str kv.1)))] }]
           function_call := "structured_response" }] := rfl

/-- C10: the invocation result is the JSON parse of the first completion
choice's function-call arguments, and any further choices have no effect on
it. -/
theorem result_reads_only_first_choice (prompt : String)
    (props : List (String × Json)) (model : String) (temperature : ℚ)
    (include_original_input : Bool) (user_input : String) (c : Choice)
    (rest : List Choice) :
    (inner_function
          (generate_structured_openai_call prompt props model temperature include_original_input)
          (fun _ => { choices := c :: rest }) user_input).2
        = (inner_function
            (generate_structured_openai_call prompt props model temperature include_original_input)
            (fun _ => { choices := [c] }) user_input).2
      ∧ (inner_function
            (generate_structured_openai_call prompt props model temperature include_original_input)
            (fun _ => { choices := c :: rest }) user_input).2
          = (match json_loads c.message.function_call.arguments with
             | none => Except.error CallError.decodeError
             | some j => Except.ok j) :=
  ⟨rfl, rfl⟩

/-- C3: against a stub service that echoes a fixed arguments string `s`, the
returned callable yields exactly the JSON parse of `s` — no filtering,
validation or addition of keys. -/
theorem invocation_returns_parsed_arguments (prompt : String)
    (props : List (String × Json)) (model : String) (temperature : ℚ)
    (include_original_input : Bool) (user_input s : String) (j : Json)
    (h : json_loads s = some j) :
    (inner_function
        (generate_structured_openai_call prompt props model temperature include_original_input)
        (echoService s) user_input).2 = Except.ok j := by
  simp [inner_function, echoService, h]

/-- Witness for C3, on the spec's own scenario. -/
theorem invocation_returns_parsed_arguments_witness :
    (inner_function
        (generate_structured_openai_call "The name of our location, at this resolution"
          [("location_name",
            Json.obj [("type", Json.str "string"),
                      ("description", Json.str "The name of the location we are in")])]
          "gpt-3.5-turbo" 0 true)
        (echoService "\x7b\"original_input\": \"Our galaxy\", \"location_name\": \"Milky Way\"\x7d")
        "Our galaxy").2
      = Except.ok (Json.obj [("original_input", Json.str "Our galaxy"),
                             ("location_name", Json.str "Milky Way")]) :=
  invocation_returns_parsed_arguments
    "The name of our location, at this resolution"
    [("location_name",
      Json.obj [("type", Json.str "string"),
                ("description", Json.str "The name of the location we are in")])]
    "gpt-3.5-turbo" 0 true "Our galaxy"
    "\x7b\"original_input\": \"Our galaxy\", \"location_name\": \"Milky Way\"\x7d"
    (Json.obj [("original_input", Json.str "Our galaxy"),
               ("location_name", Json.str "Milky Way")])
    (by rfl)

/-- C1 counterexample: when the caller's properties already contain the key
`original_input`, the effective schema's first (and only) entry carries the
caller's descriptor, not the fixed one, so the claim fails as universally
stated. -/
theorem c1_fixed_descriptor_counterexample :
    (generate_structured_openai_call "p" [("original_input", Json.null)] "gpt-3.5-turbo" 0
        true).response_properties
      = [("original_input", Json.null)]
    ∧ Json.null ≠ originalInputDescriptor :=
  ⟨rfl, fun h => Json.noConfusion h⟩

/-- C1 (amended): for every `responseProperties` that does not itself contain
the key `original_input`, the effective schema with `includeOriginalInput =
true` is the fixed descriptor under `original_input` first, followed by the
caller's entries unchanged and in their original order. -/
theorem effective_schema_prepends_original_input (prompt : String)
    (props : List (String × Json)) (model : String) (temperature : ℚ)
    (h : dictFind "original_input" props = none) :
    (generate_structured_openai_call prompt props model temperature true).response_properties
      = ("original_input", originalInputDescriptor) :: props := by
  show pyDictUnion [("original_input", originalInputDescriptor)] props
      = ("original_input", originalInputDescriptor) :: props
  unfold pyDictUnion
  rw [List.map, List.map, h]
  rw [List.cons_append, List.nil_append,
    filter_singleton_of_find_none "original_input" originalInputDescriptor props h]
  rfl

/-- Witness for the amended C1. -/
theorem effective_schema_prepends_original_input_witness :
    (generate_structured_openai_call "p" [("location_name", Json.null)] "m" 0
        true).response_properties
      = ("original_input", originalInputDescriptor) :: [("location_name", Json.null)] :=
  effective_schema_prepends_original_input "p" [("location_name", Json.null)] "m" 0 rfl

/-- C4 counterexample: arguments that are valid JSON but not a JSON object
(here the array `[1, 2]`) are returned parsed, without any error — the code
never checks that the decoded value is an object. -/
theorem c4_non_object_counterexample :
    (inner_function (generate_structured_openai_call "p" [] "gpt-3.5-turbo" 0 true)
          (echoService "[1, 2]") "x").2
        = Except.ok (Json.arr [Json.num "1", Json.num "2"])
    ∧ (inner_function (generate_structured_openai_call "p" [] "gpt-3.5-turbo" 0 true)
          (echoService "[1, 2]") "x").2
        ≠ Except.error CallError.decodeError :=
  ⟨rfl, fun h => Except.noConfusion h⟩

/-- C4 (amended): when the returned arguments string is not valid JSON, the
invocation fails with the decode error and never yields a silent empty or
partial result; a valid JSON value that is not an object is returned as
parsed. -/
theorem invalid_arguments_raise_decode_error (prompt : String)
    (props : List (String × Json)) (model : String) (temperature : ℚ)
    (include_original_input : Bool) (user_input s : String)
    (h : json_loads s = none) :
    (inner_function
        (generate_structured_openai_call prompt props model temperature include_original_input)
        (echoService s) user_input).2 = Except.error CallError.decodeError := by
  simp [inner_function, echoService, h]

/-- Witness for the amended C4: a lone opening brace is not valid JSON. -/
theorem invalid_arguments_raise_decode_error_witness :
    (inner_function (generate_structured_openai_call "p" [] "gpt-3.5-turbo" 0 true)
        (echoService "\x7b") "x").2 = Except.error CallError.decodeError :=
  invalid_arguments_raise_decode_error "p" [] "gpt-3.5-turbo" 0 true "x" "\x7b" rfl

/-- C8: when the caller's properties contain `original_input` and the flag is
true, the effective schema keeps `original_input` first but maps it to the
caller's descriptor (right operand of the dict merge wins), the key occurs
exactly once, and the remaining entries follow in their original order. -/
theorem caller_descriptor_wins_on_collision (prompt : String)
    (props : List (String × Json)) (model : String) (temperature : ℚ) (d : Json)
    (h : dictFind "original_input" props = some d) :
    (generate_structured_openai_call prompt props model temperature true).response_properties
        = ("original_input", d) :: props.filter (fun kv => decide (kv.1 ≠ "original_input"))
      ∧ (((generate_structured_openai_call prompt props model temperature
            true).response_properties).map Prod.fst).count "original_input" = 1 := by
  have heff :
      (generate_structured_openai_call prompt props model temperature true).response_properties
        = ("original_input", d) :: props.filter (fun kv => decide (kv.1 ≠ "original_input")) := by
    show pyDictUnion [("original_input", originalInputDescriptor)] props = _
    unfold pyDictUnion
    rw [List.map, List.map, h]
    rw [List.cons_append, List.nil_append,
      filter_singleton_pred_eq "original_input" originalInputDescriptor props]
    rfl
  refine ⟨heff, ?_⟩
  rw [heff, List.map_cons, List.count_cons_self,
    count_map_fst_filter_ne "original_input" props]

/-- Witness for C8. -/
theorem caller_descriptor_wins_on_collision_witness :
    (generate_structured_openai_call "p"
          [("original_input", Json.str "custom"), ("a", Json.bool true)] "m" 0
          true).response_properties
        = ("original_input", Json.str "custom")
            :: ([("original_input", Json.str "custom"), ("a", Json.bool true)].filter
                  (fun kv => decide (kv.1 ≠ "original_input")))
      ∧ (((generate_structured_openai_call "p"
            [("original_input", Json.str "custom"), ("a", Json.bool true)] "m" 0
            true).response_properties).map Prod.fst).count "original_input" = 1 :=
  caller_descriptor_wins_on_collision "p"
    [("original_input", Json.str "custom"), ("a", Json.bool true)] "m" 0
    (Json.str "custom") rfl

/-- C9: the factory never mutates the caller's dict: at heap level the merge
allocates a fresh dict and only rebinds the local name, so every dict that
existed before the build — the caller's `response_properties` included —
holds exactly its old entries afterwards, and the configuration's own dict
holds the value-level effective schema. -/
theorem build_never_mutates_caller_dict (store : DictStore) (prompt : String)
    (props_ref : Nat) (model : String) (temperature : ℚ)
    (include_original_input : Bool) :
    (∀ r, r < store.size →
        DictStore.get
            (generate_structured_openai_call_heap store prompt props_ref model temperature
              include_original_input).1 r
          = DictStore.get store r)
      ∧ DictStore.get
            (generate_structured_openai_call_heap store prompt props_ref model temperature
              include_original_input).1
            (generate_structured_openai_call_heap store prompt props_ref model temperature
              include_original_input).2.props_ref
          = (generate_structured_openai_call prompt (store.get props_ref) model temperature
              include_original_input).response_properties := by
  cases include_original_input with
  | false => exact ⟨fun r _ => rfl, rfl⟩
  | true =>
    constructor
    · intro r hr
      show DictStore.get (store ++ [_]) r = DictStore.get store r
      exact List.getD_append store _ [] r hr
    · show DictStore.get (store ++ [_]) store.size = _
      unfold DictStore.get
      rw [List.getD_append_right store _ [] store.size (Nat.le_refl _)]
      show List.getD [_] (store.size - store.size) [] = _
      rw [Nat.sub_self]
      rfl

/-- Witness for C9. -/
theorem build_never_mutates_caller_dict_witness :
    DictStore.get
        (generate_structured_openai_call_heap [[("a", Json.null)]] "p" 0 "m" 0 true).1 0
      = DictStore.get [[("a", Json.null)]] 0 :=
  (build_never_mutates_caller_dict [[("a", Json.null)]] "p" 0 "m" 0 true).1 0
    (by decide)

end StructuredOpenAI
